import Mathlib

/-!
Shallow embedding of `remotable_python.py` (remote Python execution client).

The script drives a paramiko SSH transport.  We model the transport as an
explicit oracle (connection outcome, per-call remote command outcomes) plus a
remote filesystem given as the list of already-existing remote paths.  Every
operation of the script is translated into a pure function returning the list
of observable transport events it issued together with an `Except` value that
models Python control flow (normal return versus a raised exception).

Correspondence of the error constructors with Python exception types:
  * `PyError.attributeError` is the builtin `AttributeError`.  It is raised
    both by `getattr(self, "ssh_client")` when `connect` was never called
    (source lines 34-36) and by paramiko itself when a method is invoked on a
    closed client, since `SSHClient.close` sets the underlying transport to
    `None` and the next call dereferences it.  In the vocabulary of the spec
    this exception is the `NotConnectedError`.
  * `PyError.assertionError` is the builtin `AssertionError` raised by the
    `assert local_file.is_file()` guard (source line 147).
  * `PyError.transport e` is an exception raised by the paramiko transport
    (the spec calls these `ConnectionError` and `TransferError`); in
    particular `TransportErr.ioExists p` is the `IOError` that `sftp.mkdir`
    raises when the remote path `p` already exists.
  * `PyError.remotePython m` is the domain exception `RemotePythonException`
    declared at source lines 17-18.
-/

/-- Exceptions originating in the paramiko transport (the external
collaborator of the core). -/
inductive TransportErr : Type where
| connectFail (msg : String) : TransportErr
| execFail (msg : String) : TransportErr
| ioExists (path : String) : TransportErr
deriving DecidableEq, Repr

/-- Python exceptions that the operations of the script can propagate. -/
inductive PyError : Type where
| attributeError : PyError
| assertionError : PyError
| transport (e : TransportErr) : PyError
| remotePython (msg : String) : PyError
deriving DecidableEq, Repr

/-- Observable calls issued against the transport and the output channel. -/
inductive Event : Type where
| connectAttempt : Event
| closeCalled : Event
| execCall (cmd : String) (pty : Bool) : Event
| openSftp : Event
| mkdirCall (path : String) : Event
| putCall (localPath : String) (remotePath : String) : Event
| emit (s : String) : Event
deriving DecidableEq, Repr

/-- Outcome of one `exec_command` transport call: either the remote command
ran and produced its stdout lines and its stderr text, or the transport
raised. -/
inductive ExecOutcome : Type where
| success (stdoutLines : List String) (stderr : String) : ExecOutcome
| failure (e : TransportErr) : ExecOutcome

/-- Behaviour of the external transport: the outcome of the connection
attempt (`none` meaning success) and the outcome of the n-th
`exec_command` call. -/
structure Oracle : Type where
connectResult : Option TransportErr
execResult : Nat → ExecOutcome

/-- State threaded through a run: the `ssh_client` attribute of the Python
object (`none` when the attribute was never set by `connect`; `some b` when
it is set, `b` recording whether the underlying transport is still open),
the set of existing remote paths, and the number of `exec_command` calls
made so far (used to index into the oracle). -/
structure World : Type where
handle : Option Bool
fs : List String
execCtr : Nat
deriving DecidableEq, Repr

/-- Result of running a piece of the script: the trace of issued events and
either a returned value or a raised exception. -/
abbrev R (α : Type) : Type := List Event × Except PyError α

/-- Models Python sequencing: run the first action; when it raises, the rest
is skipped, otherwise the continuation runs and the traces concatenate. -/
def andThen {α β : Type} (x : R α) (f : α → R β) : R β :=
  match x with
  | (tr, .error e) => (tr, .error e)
  | (tr, .ok a) =>
    match f a with
    | (tr2, r) => (tr ++ tr2, r)

/-- True exactly when the run returned normally. -/
def resultOk {α : Type} : Except PyError α → Bool
| .ok _ => true
| .error _ => false

/-- Models `Path.as_posix` on a path given as its list of segments (an
absolute path starts with an empty segment). -/
def asPosix (p : List String) : String :=
  String.intercalate "/" p

/-- Models `SSHClient.connect` (source lines 27-32): attempt the paramiko
connection; on success the `ssh_client` attribute is set to the live
client. -/
def ssh_connect (oracle : Oracle) (w : World) : R World :=
  match oracle.connectResult with
  | some e => ([Event.connectAttempt], .error (.transport e))
  | none => ([Event.connectAttempt], .ok { w with handle := some true })

/-- Models `SSHClient.close` (source lines 38-39): look up the `ssh_client`
attribute (raising `AttributeError` when `connect` never ran) and close the
paramiko client; closing an already-closed paramiko client is a no-op. -/
def ssh_close (w : World) : R World :=
  match w.handle with
  | none => ([Event.closeCalled], .error .attributeError)
  | some _ => ([Event.closeCalled], .ok { w with handle := some false })

/-- Models `self._ssh_client.exec_command(cmdStr, get_pty=pty)`: raises
`AttributeError` when the attribute is unset (never connected) or when the
client was closed (its transport is `None`); otherwise the oracle decides
the outcome of the remote call. -/
def exec_command (oracle : Oracle) (w : World) (cmdStr : String) (pty : Bool) :
    R (World × List String × String) :=
  match w.handle with
  | none => ([], .error .attributeError)
  | some false => ([], .error .attributeError)
  | some true =>
    match oracle.execResult w.execCtr with
    | .failure e => ([Event.execCall cmdStr pty], .error (.transport e))
    | .success lines err =>
      ([Event.execCall cmdStr pty], .ok ({ w with execCtr := w.execCtr + 1 }, lines, err))

/-- Models source line 52: `command = ["sudo -E"] + command if as_root else
command`. -/
def build_command (command : List String) (as_root : Bool) : List String :=
  if as_root then "sudo -E" :: command else command

/-- Models the `" ".join(command)` of source line 54. -/
def join_command (command : List String) : String :=
  String.intercalate " " command

/-- Models `SSHClient.execute` (source lines 41-59): build the invocation
string, run it remotely, print every stdout line as it arrives, then print
the joined stderr lines (`print` appends a final newline). -/
def execute (oracle : Oracle) (w : World) (command : List String)
    (as_root : Bool) (print_continuously : Bool) : R World :=
  andThen (exec_command oracle w (join_command (build_command command as_root)) print_continuously)
    (fun x =>
      match x with
      | (w1, lines, err) =>
        (lines.map Event.emit ++ [Event.emit (err ++ "\n")], .ok w1))

/-- Models `self._ssh_client.open_sftp()`: needs the attribute to be set and
the client to be open, as `exec_command` does. -/
def open_sftp (w : World) : R Unit :=
  match w.handle with
  | none => ([], .error .attributeError)
  | some false => ([], .error .attributeError)
  | some true => ([Event.openSftp], .ok ())

/-- Models `sftp.mkdir(path)`: raises an `IOError` when the remote path
already exists, otherwise records the new remote directory. -/
def sftp_mkdir (w : World) (path : String) : R World :=
  if path ∈ w.fs then ([Event.mkdirCall path], .error (.transport (.ioExists path)))
  else ([Event.mkdirCall path], .ok { w with fs := path :: w.fs })

/-- Models `sftp.put(localPath, remotePath)`. -/
def sftp_put (localPath remotePath : String) : R Unit :=
  ([Event.putCall localPath remotePath], .ok ())

mutual
/-- A local directory tree node: the `iterdir` children of a directory are
listed in traversal order. -/
inductive Entry : Type where
| file (name : String) : Entry
| dir (name : String) (children : Entries) : Entry
inductive Entries : Type where
| nil : Entries
| cons (e : Entry) (es : Entries) : Entries
end

/-- Models `Path.name`. -/
def Entry.name : Entry → String
| .file n => n
| .dir n _ => n

mutual
/-- Models the body of `SSHClient.copy_folder` after the sftp channel is
open (source lines 73-78), for one tree node.  `localDir` is the path of the
directory containing the node and `target` the remote directory it is
mirrored into: a file child becomes one `put`, a directory child becomes one
`mkdir` followed by the recursive walk of its children (the recursive call
of line 78, which reuses the open channel). -/
def copy_tree (w : World) (localDir target : List String) : Entry → R World
| .file n =>
  andThen (sftp_put (asPosix (localDir ++ [n])) (asPosix (target ++ [n])))
    (fun _ => ([], .ok w))
| .dir n cs =>
  andThen (sftp_mkdir w (asPosix (target ++ [n])))
    (fun w1 => copy_tree_children w1 (localDir ++ [n]) (target ++ [n]) cs)
/-- Models the `for l_dir in local_folder.iterdir()` loop of source lines
74-78. -/
def copy_tree_children (w : World) (localDir target : List String) : Entries → R World
| .nil => ([], .ok w)
| .cons e es =>
  andThen (copy_tree w localDir target e)
    (fun w1 => copy_tree_children w1 localDir target es)
end

/-- Models the top-level call of `SSHClient.copy_folder(local_folder,
remote_destination)` (source lines 61-78) with the default `sftp=None`:
open one sftp channel, then mirror the tree.  `local_parent` is the path of
the directory containing `local_folder`. -/
def copy_folder (w : World) (local_parent : List String) (local_folder : Entry)
    (remote_destination : List String) : R World :=
  andThen (open_sftp w) (fun _ => copy_tree w local_parent remote_destination local_folder)

/-- Models `SSHClient.copy_file` (source lines 80-89): open an sftp channel
and put the file into the destination directory under its own name. -/
def copy_file (w : World) (local_parent : List String) (file_name : String)
    (remote_destination : List String) : R World :=
  andThen (open_sftp w)
    (fun _ =>
      andThen (sftp_put (asPosix (local_parent ++ [file_name]))
          (asPosix (remote_destination ++ [file_name])))
        (fun _ => ([], .ok w)))

/-- Models `RemotePython.open_ssh_client` (source lines 98-104) used as a
`with` block around `body`: a fresh `SSHClient` object is built, `connect`
runs inside the `try`, and `close` runs in the `finally` on every exit path;
an exception raised by `close` replaces the in-flight exception, as in
Python. -/
def with_ssh (oracle : Oracle) (fs : List String) (body : World → R World) : R World :=
  let w0 : World := { handle := none, fs := fs, execCtr := 0 }
  match ssh_connect oracle w0 with
  | (tr1, .error e) =>
    match ssh_close w0 with
    | (tr2, .error e2) => (tr1 ++ tr2, .error e2)
    | (tr2, .ok _) => (tr1 ++ tr2, .error e)
  | (tr1, .ok w1) =>
    match body w1 with
    | (tr2, r2) =>
      match ssh_close w1 with
      | (tr3, .error e3) => (tr1 ++ tr2 ++ tr3, .error e3)
      | (tr3, .ok w3) =>
        match r2 with
        | .error e => (tr1 ++ tr2 ++ tr3, .error e)
        | .ok _ => (tr1 ++ tr2 ++ tr3, .ok w3)

/-- Models `RemotePython.create_python_environment` (source lines 106-115). -/
def create_python_environment (oracle : Oracle) (fs : List String)
    (path : List String) (env_name : String) : R World :=
  with_ssh oracle fs (fun w =>
    execute oracle w ["python3", "-m", "venv", asPosix (path ++ [env_name])] false false)

/-- Models `RemotePython.execute_python_project` (source lines 117-136):
remove the pre-existing remote project directory (elevated when the
workflow is), mirror the project directory, then run the interpreter
against the entry file in streaming mode. -/
def execute_python_project (oracle : Oracle) (fs : List String)
    (project_parent : List String) (project : Entry) (file : List String)
    (remote_destination : List String) (as_root : Bool) : R World :=
  let remote_project_folder := remote_destination ++ [project.name]
  with_ssh oracle fs (fun w =>
    andThen (execute oracle w ["rm -rf " ++ asPosix remote_project_folder] as_root false)
      (fun w1 =>
        andThen (copy_folder w1 project_parent project remote_destination)
          (fun w2 =>
            execute oracle w2 ["python3", asPosix (remote_project_folder ++ file)] as_root true)))

/-- Models `RemotePython.execute_python_file` (source lines 138-153): assert
the local path is a file, print the destination, remove the pre-existing
remote file (without elevation: line 151 passes no `as_root`), copy the
file, then run the interpreter against it in streaming mode. -/
def execute_python_file (oracle : Oracle) (fs : List String)
    (local_parent : List String) (file_name : String) (is_file : Bool)
    (remote_destination : List String) (as_root : Bool) : R World :=
  if is_file then
    let file_to_execute := asPosix (remote_destination ++ [file_name])
    andThen (([Event.emit (asPosix remote_destination ++ "\n")], .ok ()))
      (fun _ => with_ssh oracle fs (fun w =>
        andThen (execute oracle w ["rm -f " ++ file_to_execute] false false)
          (fun w1 =>
            andThen (copy_file w1 local_parent file_name remote_destination)
              (fun w2 => execute oracle w2 ["python3", file_to_execute] as_root true))))
  else ([], .error .assertionError)

/-- Models the `except RemotePythonException` handler of source lines
220-224: it fires (returning the printed message) exactly when the workflow
raised the domain exception. -/
def main_handler {α : Type} : Except PyError α → Option String
| .error (.remotePython m) => some m
| _ => none

mutual
/-- Stated from the spec (section 8, first property): the expected transfer
calls for one tree node, one directory-creation call per directory node and
one file-copy call per file node, each targeting the remote destination
extended with the path of the node relative to the parent of the mirrored
directory.  `localDir` and `target` are the local and remote paths of the
directory containing the node. -/
def mirror_calls (localDir target : List String) : Entry → List Event
| .file n => [Event.putCall (asPosix (localDir ++ [n])) (asPosix (target ++ [n]))]
| .dir n cs =>
  Event.mkdirCall (asPosix (target ++ [n])) :: mirror_calls_children (localDir ++ [n]) (target ++ [n]) cs
/-- The expected transfer calls for a list of children, in order. -/
def mirror_calls_children (localDir target : List String) : Entries → List Event
| .nil => []
| .cons e es => mirror_calls localDir target e ++ mirror_calls_children localDir target es
end

mutual
/-- Number of directory nodes of a tree (the root directory included). -/
def dir_nodes : Entry → Nat
| .file _ => 0
| .dir _ cs => 1 + dir_nodes_children cs
/-- Number of directory nodes in a list of children. -/
def dir_nodes_children : Entries → Nat
| .nil => 0
| .cons e es => dir_nodes e + dir_nodes_children es
end

mutual
/-- Number of file nodes of a tree. -/
def file_nodes : Entry → Nat
| .file _ => 1
| .dir _ cs => file_nodes_children cs
/-- Number of file nodes in a list of children. -/
def file_nodes_children : Entries → Nat
| .nil => 0
| .cons e es => file_nodes e + file_nodes_children es
end

/-- Recognises a remote directory-creation call. -/
def isMkdirEvent : Event → Bool
| .mkdirCall _ => true
| _ => false

/-- Recognises a file-copy call. -/
def isPutEvent : Event → Bool
| .putCall _ _ => true
| _ => false

/-- Recognises a remote command execution call. -/
def isExecEvent : Event → Bool
| .execCall _ _ => true
| _ => false

/-- Recognises the transfer-channel calls (directory creation and file
copy). -/
def isTransferEvent : Event → Bool
| .mkdirCall _ => true
| .putCall _ _ => true
| _ => false

/-- True exactly when the run raised the domain exception
`RemotePythonException`. -/
def isRemotePythonError {α : Type} : Except PyError α → Bool
| .error (.remotePython _) => true
| _ => false

/-- A connected world over an empty remote filesystem, used for concrete
runs. -/
def demo_world : World :=
  { handle := some true, fs := [], execCtr := 0 }

/-- A sample project tree: a file, a non-empty subdirectory and an empty
subdirectory. -/
def demo_tree : Entry :=
  .dir "App" (.cons (.file "a.py")
    (.cons (.dir "sub" (.cons (.file "b.txt") .nil))
      (.cons (.dir "empty" .nil) .nil)))

/-- A transport that connects and where every remote command succeeds with
no stdout and empty stderr. -/
def demo_oracle_ok : Oracle :=
  { connectResult := none, execResult := fun _ => .success [] "" }

/-- A transport where the connection succeeds but the first remote command
raises. -/
def demo_oracle_first_exec_fails : Oracle :=
  { connectResult := none
    execResult := fun k => if k = 0 then .failure (.execFail "boom") else .success [] "" }

theorem andThen_error {α β : Type} (tr : List Event) (e : PyError) (f : α → R β) :
    andThen (tr, .error e) f = (tr, .error e) := rfl

theorem andThen_ok {α β : Type} (tr : List Event) (a : α) (f : α → R β) :
    andThen (tr, .ok a) f = (tr ++ (f a).1, (f a).2) := rfl

theorem intercalate_go_append (l : List String) :
    ∀ (x acc s : String), String.intercalate.go (x ++ acc) s l = x ++ String.intercalate.go acc s l := by
  induction l with
  | nil => intro x acc s; rfl
  | cons a as ih =>
    intro x acc s
    show String.intercalate.go (x ++ acc ++ s ++ a) s as = x ++ String.intercalate.go (acc ++ s ++ a) s as
    have hx : x ++ acc ++ s ++ a = x ++ (acc ++ s ++ a) := by
      simp [String.append_assoc]
    rw [hx, ih]

theorem intercalate_cons_cons (s a b : String) (l : List String) :
    String.intercalate s (a :: b :: l) = a ++ s ++ String.intercalate s (b :: l) := by
  show String.intercalate.go a s (b :: l) = a ++ s ++ String.intercalate.go b s l
  show String.intercalate.go (a ++ s ++ b) s l = a ++ s ++ String.intercalate.go b s l
  exact intercalate_go_append l (a ++ s) b s

theorem count_eq_zero_of_all (tr : List Event) (p : Event → Bool) (ev : Event)
    (hall : tr.all p = true) (hev : p ev = false) : tr.count ev = 0 := by
  rw [List.count_eq_zero]
  intro hmem
  have := List.all_eq_true.mp hall ev hmem
  rw [this] at hev
  exact Bool.true_eq_false.mp hev

theorem count_map_emit (lines : List String) (ev : Event)
    (h : ∀ s, ev = Event.emit s → False) : (lines.map Event.emit).count ev = 0 := by
  rw [List.count_eq_zero]
  intro hmem
  obtain ⟨s, _, hs⟩ := List.mem_map.mp hmem
  exact h s hs.symm

mutual
theorem copy_tree_all_transfer (w : World) (l t : List String) (e : Entry) :
    (copy_tree w l t e).1.all isTransferEvent = true := by
  match e with
  | .file n => simp [copy_tree, andThen, sftp_put, isTransferEvent]
  | .dir n cs =>
    by_cases h : asPosix (t ++ [n]) ∈ w.fs
    · simp [copy_tree, sftp_mkdir, h, andThen, isTransferEvent]
    · simp only [copy_tree, sftp_mkdir, h, if_neg, ite_false, andThen_ok]
      rw [List.all_append]
      simp [isTransferEvent]
      exact List.all_eq_true.mp
        (copy_tree_children_all_transfer { w with fs := asPosix (t ++ [n]) :: w.fs }
          (l ++ [n]) (t ++ [n]) cs)
theorem copy_tree_children_all_transfer (w : World) (l t : List String) (es : Entries) :
    (copy_tree_children w l t es).1.all isTransferEvent = true := by
  match es with
  | .nil => rfl
  | .cons e es2 =>
    rcases he : copy_tree w l t e with ⟨tre, re⟩
    match re with
    | .error err =>
      simp only [copy_tree_children, he, andThen_error]
      have := copy_tree_all_transfer w l t e
      rw [he] at this
      exact this
    | .ok w1 =>
      simp only [copy_tree_children, he, andThen_ok]
      rw [List.all_append]
      have h1 := copy_tree_all_transfer w l t e
      rw [he] at h1
      rw [h1, copy_tree_children_all_transfer w1 l t es2]
      rfl
end

mutual
theorem copy_tree_ok (w : World) (l t : List String) (e : Entry) (tr : List Event) (w2 : World)
    (h : copy_tree w l t e = (tr, .ok w2)) :
    tr = mirror_calls l t e ∧ w2.handle = w.handle ∧ w2.execCtr = w.execCtr := by
  match e with
  | .file n =>
    simp only [copy_tree, sftp_put, andThen_ok, List.append_nil, Prod.mk.injEq,
      Except.ok.injEq] at h
    obtain ⟨h1, h2⟩ := h
    subst h1
    subst h2
    simp [mirror_calls]
  | .dir n cs =>
    by_cases hmem : asPosix (t ++ [n]) ∈ w.fs
    · simp [copy_tree, sftp_mkdir, hmem, andThen_error] at h
    · simp only [copy_tree, sftp_mkdir, hmem, if_neg, ite_false, andThen_ok] at h
      rcases hch : copy_tree_children { w with fs := asPosix (t ++ [n]) :: w.fs }
          (l ++ [n]) (t ++ [n]) cs with ⟨chtr, chres⟩
      rw [hch] at h
      match chres with
      | .error err => simp at h
      | .ok w3 =>
        simp only [Prod.mk.injEq, Except.ok.injEq] at h
        obtain ⟨h1, h2⟩ := h
        subst h1
        subst h2
        have ih := copy_tree_children_ok { w with fs := asPosix (t ++ [n]) :: w.fs }
          (l ++ [n]) (t ++ [n]) cs chtr w3 hch
        refine ⟨?_, ih.2.1, ih.2.2⟩
        rw [ih.1]
        simp [mirror_calls]
theorem copy_tree_children_ok (w : World) (l t : List String) (es : Entries) (tr : List Event)
    (w2 : World) (h : copy_tree_children w l t es = (tr, .ok w2)) :
    tr = mirror_calls_children l t es ∧ w2.handle = w.handle ∧ w2.execCtr = w.execCtr := by
  match es with
  | .nil =>
    simp only [copy_tree_children, Prod.mk.injEq, Except.ok.injEq] at h
    obtain ⟨h1, h2⟩ := h
    subst h1
    subst h2
    simp [mirror_calls_children]
  | .cons e es2 =>
    rcases he : copy_tree w l t e with ⟨tre, re⟩
    match re with
    | .error err => simp [copy_tree_children, he, andThen_error] at h
    | .ok w1 =>
      simp only [copy_tree_children, he, andThen_ok] at h
      rcases hch : copy_tree_children w1 l t es2 with ⟨chtr, chres⟩
      rw [hch] at h
      match chres with
      | .error err => simp at h
      | .ok w3 =>
        simp only [Prod.mk.injEq, Except.ok.injEq] at h
        obtain ⟨h1, h2⟩ := h
        subst h1
        subst h2
        have ih1 := copy_tree_ok w l t e tre w1 he
        have ih2 := copy_tree_children_ok w1 l t es2 chtr w3 hch
        refine ⟨?_, by rw [ih2.2.1, ih1.2.1], by rw [ih2.2.2, ih1.2.2]⟩
        rw [ih1.1, ih2.1]
        simp [mirror_calls_children]
end

mutual
theorem mirror_calls_mkdir_count (l t : List String) (e : Entry) :
    (mirror_calls l t e).countP isMkdirEvent = dir_nodes e := by
  match e with
  | .file n => simp [mirror_calls, dir_nodes, isMkdirEvent]
  | .dir n cs =>
    simp [mirror_calls, dir_nodes, List.countP_cons, isMkdirEvent,
      mirror_calls_mkdir_count_children (l ++ [n]) (t ++ [n]) cs]
    omega
theorem mirror_calls_mkdir_count_children (l t : List String) (es : Entries) :
    (mirror_calls_children l t es).countP isMkdirEvent = dir_nodes_children es := by
  match es with
  | .nil => rfl
  | .cons e es2 =>
    simp only [mirror_calls_children, List.countP_append, dir_nodes_children,
      mirror_calls_mkdir_count l t e, mirror_calls_mkdir_count_children l t es2]
end

mutual
theorem mirror_calls_put_count (l t : List String) (e : Entry) :
    (mirror_calls l t e).countP isPutEvent = file_nodes e := by
  match e with
  | .file n => simp [mirror_calls, file_nodes, isPutEvent]
  | .dir n cs =>
    simp [mirror_calls, file_nodes, List.countP_cons, isPutEvent,
      mirror_calls_put_count_children (l ++ [n]) (t ++ [n]) cs]
theorem mirror_calls_put_count_children (l t : List String) (es : Entries) :
    (mirror_calls_children l t es).countP isPutEvent = file_nodes_children es := by
  match es with
  | .nil => rfl
  | .cons e es2 =>
    simp only [mirror_calls_children, List.countP_append, file_nodes_children,
      mirror_calls_put_count l t e, mirror_calls_put_count_children l t es2]
end

/-- C1: for every well-formed local directory tree, a successful
`copy_folder` run onto remote destination `dest` issues exactly one remote
directory-creation call per directory node (the mirrored directory itself
included) and exactly one file-copy call per file node, each targeting the
destination extended with the path of the node relative to the parent of
the mirrored directory; an empty directory contributes its creation call
and no file-copy call. -/
theorem c1_copy_folder_mirror (w : World) (local_parent : List String) (e : Entry)
    (dest : List String)
    (h : resultOk (copy_folder w local_parent e dest).2 = true) :
    (copy_folder w local_parent e dest).1 = Event.openSftp :: mirror_calls local_parent dest e
    ∧ (copy_folder w local_parent e dest).1.countP isMkdirEvent = dir_nodes e
    ∧ (copy_folder w local_parent e dest).1.countP isPutEvent = file_nodes e := by
  rcases hh : w.handle with _ | b
  · simp [copy_folder, open_sftp, hh, andThen_error, resultOk] at h
  · match b with
    | false => simp [copy_folder, open_sftp, hh, andThen_error, resultOk] at h
    | true =>
      rcases hct : copy_tree w local_parent dest e with ⟨tr, r⟩
      match r with
      | .error err =>
        simp [copy_folder, open_sftp, hh, andThen_ok, hct, resultOk] at h
      | .ok w2 =>
        have htr := (copy_tree_ok w local_parent dest e tr w2 hct).1
        have hshape : (copy_folder w local_parent e dest).1
            = Event.openSftp :: mirror_calls local_parent dest e := by
          simp [copy_folder, open_sftp, hh, andThen_ok, hct, htr]
        refine ⟨hshape, ?_, ?_⟩
        · rw [hshape, List.countP_cons]
          simp [isMkdirEvent, mirror_calls_mkdir_count]
        · rw [hshape, List.countP_cons]
          simp [isPutEvent, mirror_calls_put_count]

/-- Witness for C1 at a concrete tree containing a file, a nested directory
and an empty directory. -/
theorem c1_witness :
    resultOk (copy_folder demo_world ["home"] demo_tree ["", "srv"]).2 = true
    ∧ (copy_folder demo_world ["home"] demo_tree ["", "srv"]).1
      = Event.openSftp :: mirror_calls ["home"] ["", "srv"] demo_tree
    ∧ (copy_folder demo_world ["home"] demo_tree ["", "srv"]).1.countP isMkdirEvent = 3
    ∧ (copy_folder demo_world ["home"] demo_tree ["", "srv"]).1.countP isPutEvent = 2 := by
  have hok : resultOk (copy_folder demo_world ["home"] demo_tree ["", "srv"]).2 = true := by
    decide
  have hmain := c1_copy_folder_mirror demo_world ["home"] demo_tree ["", "srv"] hok
  exact ⟨hok, hmain.1, by rw [hmain.2.1]; decide, by rw [hmain.2.2]; decide⟩

theorem andThen_no_rpe {α β : Type} (x : R α) (f : α → R β)
    (hx : isRemotePythonError x.2 = false) (hf : ∀ a, isRemotePythonError (f a).2 = false) :
    isRemotePythonError (andThen x f).2 = false := by
  rcases x with ⟨tr, r⟩
  match r with
  | .error e =>
    rw [andThen_error]
    cases e <;> simp [isRemotePythonError] at hx ⊢
  | .ok a =>
    rcases hfa : f a with ⟨tr2, r2⟩
    have := hf a
    rw [hfa] at this
    simp only [andThen, hfa]
    exact this

theorem execute_no_rpe (oracle : Oracle) (w : World) (c : List String) (r p : Bool) :
    isRemotePythonError (execute oracle w c r p).2 = false := by
  rcases hh : w.handle with _ | b
  · simp [execute, exec_command, hh, andThen, isRemotePythonError]
  · match b with
    | false => simp [execute, exec_command, hh, andThen, isRemotePythonError]
    | true =>
      rcases hr : oracle.execResult w.execCtr with ⟨lines, err⟩ | er
      · simp [execute, exec_command, hh, hr, andThen, isRemotePythonError]
      · simp [execute, exec_command, hh, hr, andThen, isRemotePythonError]

mutual
theorem copy_tree_no_rpe (w : World) (l t : List String) (e : Entry) :
    isRemotePythonError (copy_tree w l t e).2 = false := by
  match e with
  | .file n => simp [copy_tree, sftp_put, andThen, isRemotePythonError]
  | .dir n cs =>
    by_cases hmem : asPosix (t ++ [n]) ∈ w.fs
    · simp [copy_tree, sftp_mkdir, hmem, andThen, isRemotePythonError]
    · simp only [copy_tree, sftp_mkdir, hmem, if_neg, ite_false, andThen_ok]
      exact copy_tree_children_no_rpe { w with fs := asPosix (t ++ [n]) :: w.fs }
        (l ++ [n]) (t ++ [n]) cs
theorem copy_tree_children_no_rpe (w : World) (l t : List String) (es : Entries) :
    isRemotePythonError (copy_tree_children w l t es).2 = false := by
  match es with
  | .nil => rfl
  | .cons e es2 =>
    rcases he : copy_tree w l t e with ⟨tre, re⟩
    match re with
    | .error err =>
      simp only [copy_tree_children, he, andThen_error]
      have := copy_tree_no_rpe w l t e
      rw [he] at this
      exact this
    | .ok w1 =>
      simp only [copy_tree_children, he, andThen_ok]
      exact copy_tree_children_no_rpe w1 l t es2
end

theorem copy_folder_no_rpe (w : World) (parent : List String) (e : Entry) (dest : List String) :
    isRemotePythonError (copy_folder w parent e dest).2 = false := by
  rcases hh : w.handle with _ | b
  · simp [copy_folder, open_sftp, hh, andThen, isRemotePythonError]
  · match b with
    | false => simp [copy_folder, open_sftp, hh, andThen, isRemotePythonError]
    | true =>
      simp only [copy_folder, open_sftp, hh, andThen_ok]
      exact copy_tree_no_rpe w parent dest e

theorem copy_file_no_rpe (w : World) (lp : List String) (fn : String) (dest : List String) :
    isRemotePythonError (copy_file w lp fn dest).2 = false := by
  rcases hh : w.handle with _ | b
  · simp [copy_file, open_sftp, hh, andThen, isRemotePythonError]
  · match b with
    | false => simp [copy_file, open_sftp, hh, andThen, isRemotePythonError]
    | true => simp [copy_file, open_sftp, sftp_put, hh, andThen, isRemotePythonError]

theorem with_ssh_no_rpe (oracle : Oracle) (fs : List String) (body : World → R World)
    (hb : ∀ w, isRemotePythonError (body w).2 = false) :
    isRemotePythonError (with_ssh oracle fs body).2 = false := by
  rcases hc : oracle.connectResult with _ | e
  · rcases hbw : body { handle := some true, fs := fs, execCtr := 0 } with ⟨trB, rB⟩
    have hbr := hb { handle := some true, fs := fs, execCtr := 0 }
    rw [hbw] at hbr
    match rB with
    | .error e2 => simp [with_ssh, ssh_connect, ssh_close, hc, hbw, isRemotePythonError] at hbr ⊢; exact hbr
    | .ok w3 => simp [with_ssh, ssh_connect, ssh_close, hc, hbw, isRemotePythonError]
  · simp [with_ssh, ssh_connect, ssh_close, hc, isRemotePythonError]

theorem andThen_count_zero {α β : Type} (x : R α) (f : α → R β) (ev : Event)
    (hx : x.1.count ev = 0) (hf : ∀ a, (f a).1.count ev = 0) :
    (andThen x f).1.count ev = 0 := by
  rcases x with ⟨tr, r⟩
  match r with
  | .error e => rw [andThen_error]; exact hx
  | .ok a =>
    rcases hfa : f a with ⟨tr2, r2⟩
    have h2 := hf a
    rw [hfa] at h2
    simp only [andThen, hfa]
    rw [List.count_append]
    simp only at hx h2
    omega

theorem execute_count_zero (oracle : Oracle) (w : World) (c : List String) (r p : Bool)
    (ev : Event) (h1 : isExecEvent ev = false) (h2 : ∀ s, ev = Event.emit s → False) :
    (execute oracle w c r p).1.count ev = 0 := by
  rcases hh : w.handle with _ | b
  · simp [execute, exec_command, hh, andThen]
  · match b with
    | false => simp [execute, exec_command, hh, andThen]
    | true =>
      rcases hr : oracle.execResult w.execCtr with ⟨lines, err⟩ | er
      · simp only [execute, exec_command, hh, hr, andThen_ok]
        rw [List.count_eq_zero]
        intro hmem
        rcases List.mem_append.mp hmem with hm | hm
        · simp only [List.mem_singleton] at hm
          rw [hm] at h1
          simp [isExecEvent] at h1
        · rcases List.mem_append.mp hm with hm2 | hm2
          · obtain ⟨s, _, hs⟩ := List.mem_map.mp hm2
            exact h2 s hs.symm
          · simp only [List.mem_singleton] at hm2
            exact h2 (err ++ "\n") hm2
      · simp only [execute, exec_command, hh, hr, andThen_error]
        rw [List.count_eq_zero]
        intro hmem
        simp only [List.mem_singleton] at hmem
        rw [hmem] at h1
        simp [isExecEvent] at h1

theorem copy_folder_count_zero (w : World) (parent : List String) (e : Entry)
    (dest : List String) (ev : Event) (h1 : isTransferEvent ev = false)
    (h2 : ev = Event.openSftp → False) :
    (copy_folder w parent e dest).1.count ev = 0 := by
  rcases hh : w.handle with _ | b
  · simp [copy_folder, open_sftp, hh, andThen]
  · match b with
    | false => simp [copy_folder, open_sftp, hh, andThen]
    | true =>
      simp only [copy_folder, open_sftp, hh, andThen_ok]
      rw [List.count_eq_zero]
      intro hmem
      rcases List.mem_append.mp hmem with hm | hm
      · simp only [List.mem_singleton] at hm
        exact h2 hm
      · have hall := copy_tree_all_transfer w parent dest e
        have := List.all_eq_true.mp hall ev hm
        rw [this] at h1
        exact Bool.true_eq_false.mp h1

theorem copy_file_count_zero (w : World) (lp : List String) (fn : String)
    (dest : List String) (ev : Event) (h1 : isTransferEvent ev = false)
    (h2 : ev = Event.openSftp → False) :
    (copy_file w lp fn dest).1.count ev = 0 := by
  rcases hh : w.handle with _ | b
  · simp [copy_file, open_sftp, hh, andThen]
  · match b with
    | false => simp [copy_file, open_sftp, hh, andThen]
    | true =>
      simp only [copy_file, open_sftp, sftp_put, hh, andThen_ok]
      rw [List.count_eq_zero]
      intro hmem
      rcases List.mem_append.mp hmem with hm | hm
      · simp only [List.mem_singleton] at hm
        exact h2 hm
      · simp only [List.singleton_append, List.mem_cons] at hm
        rcases hm with hm | hm
        · rw [hm] at h1
          simp [isTransferEvent] at h1
        · simp at hm

theorem with_ssh_shape (oracle : Oracle) (fs : List String) (body : World → R World)
    (hb1 : ∀ w, (body w).1.count Event.connectAttempt = 0)
    (hb2 : ∀ w, (body w).1.count Event.closeCalled = 0) :
    (with_ssh oracle fs body).1.count Event.connectAttempt = 1
    ∧ (with_ssh oracle fs body).1.count Event.closeCalled = 1
    ∧ ∃ pre, (with_ssh oracle fs body).1 = pre ++ [Event.closeCalled] := by
  rcases hc : oracle.connectResult with _ | e
  · rcases hbw : body { handle := some true, fs := fs, execCtr := 0 } with ⟨trB, rB⟩
    have h1 := hb1 { handle := some true, fs := fs, execCtr := 0 }
    have h2 := hb2 { handle := some true, fs := fs, execCtr := 0 }
    rw [hbw] at h1 h2
    simp only at h1 h2
    have htr : (with_ssh oracle fs body).1 = [Event.connectAttempt] ++ trB ++ [Event.closeCalled] := by
      match rB with
      | .error e2 => simp [with_ssh, ssh_connect, ssh_close, hc, hbw]
      | .ok w3 => simp [with_ssh, ssh_connect, ssh_close, hc, hbw]
    rw [htr]
    refine ⟨?_, ?_, ⟨[Event.connectAttempt] ++ trB, rfl⟩⟩
    · rw [List.count_append, List.count_append, h1]
      decide
    · rw [List.count_append, List.count_append, h2]
      decide
  · have htr : (with_ssh oracle fs body).1 = [Event.connectAttempt] ++ [Event.closeCalled] := by
      simp [with_ssh, ssh_connect, ssh_close, hc]
    rw [htr]
    exact ⟨by decide, by decide, ⟨[Event.connectAttempt], rfl⟩⟩

/-- C4: mirroring a local directory into a destination where the target
directory already exists on the remote host fails with the transfer error
(the `IOError` of `sftp.mkdir`, the `TransferError` of the spec), and no
file-copy call is issued before the failure: the trace holds only the
channel opening and the one colliding directory-creation call. -/
theorem c4_collision_aborts (fs : List String) (ctr : Nat) (parent : List String)
    (name : String) (cs : Entries) (dest : List String)
    (hmem : asPosix (dest ++ [name]) ∈ fs) :
    copy_folder { handle := some true, fs := fs, execCtr := ctr } parent (.dir name cs) dest
      = ([Event.openSftp, Event.mkdirCall (asPosix (dest ++ [name]))],
         .error (.transport (.ioExists (asPosix (dest ++ [name])))))
    ∧ (copy_folder { handle := some true, fs := fs, execCtr := ctr } parent
        (.dir name cs) dest).1.countP isPutEvent = 0 := by
  have h : copy_folder { handle := some true, fs := fs, execCtr := ctr } parent (.dir name cs) dest
      = ([Event.openSftp, Event.mkdirCall (asPosix (dest ++ [name]))],
         .error (.transport (.ioExists (asPosix (dest ++ [name]))))) := by
    simp [copy_folder, open_sftp, andThen_ok, copy_tree, sftp_mkdir, hmem, andThen_error, andThen]
  refine ⟨h, ?_⟩
  rw [h]
  simp [isPutEvent]

/-- Witness for C4: with `/srv/App` already present remotely, mirroring
`App` into `/srv` raises the collision error without any file copy. -/
theorem c4_witness :
    asPosix (["", "srv"] ++ ["App"]) ∈ ["/srv/App"]
    ∧ copy_folder { handle := some true, fs := ["/srv/App"], execCtr := 0 } ["home"]
        (.dir "App" (.cons (.file "a.py") .nil)) ["", "srv"]
      = ([Event.openSftp, Event.mkdirCall "/srv/App"],
         .error (.transport (.ioExists "/srv/App")))
    ∧ (copy_folder { handle := some true, fs := ["/srv/App"], execCtr := 0 } ["home"]
        (.dir "App" (.cons (.file "a.py") .nil)) ["", "srv"]).1.countP isPutEvent = 0 := by
  have hm : asPosix (["", "srv"] ++ ["App"]) ∈ ["/srv/App"] := by decide
  have h := c4_collision_aborts ["/srv/App"] 0 ["home"] "App" (.cons (.file "a.py") .nil)
    ["", "srv"] hm
  refine ⟨hm, ?_, h.2⟩
  rw [h.1]
  rfl

/-- C5: every session operation invoked before `connect` or after `close`
raises the not-connected failure (the `AttributeError`: before `connect`
the `ssh_client` attribute is missing, after `close` the paramiko client
has a `None` transport) rather than silently doing nothing; no transport
call is issued. -/
theorem c5_operations_outside_session (oracle : Oracle) (fs : List String) (ctr : Nat)
    (command : List String) (as_root pty : Bool) (lp parent : List String)
    (fn : String) (e : Entry) (dest : List String) :
    execute oracle { handle := none, fs := fs, execCtr := ctr } command as_root pty
      = ([], .error .attributeError)
    ∧ execute oracle { handle := some false, fs := fs, execCtr := ctr } command as_root pty
      = ([], .error .attributeError)
    ∧ copy_file { handle := none, fs := fs, execCtr := ctr } lp fn dest
      = ([], .error .attributeError)
    ∧ copy_file { handle := some false, fs := fs, execCtr := ctr } lp fn dest
      = ([], .error .attributeError)
    ∧ copy_folder { handle := none, fs := fs, execCtr := ctr } parent e dest
      = ([], .error .attributeError)
    ∧ copy_folder { handle := some false, fs := fs, execCtr := ctr } parent e dest
      = ([], .error .attributeError) :=
  ⟨rfl, rfl, rfl, rfl, rfl, rfl⟩

/-- C6 counterexample: calling `close` on a never-opened session raises
(the `ssh_client` attribute was never set), refuting the part of the claim
that says `close` never raises on a never-opened session. -/
theorem c6_close_counterexample :
    ssh_close { handle := none, fs := [], execCtr := 0 }
      = ([Event.closeCalled], .error PyError.attributeError) := rfl

/-- C6 amended: once the session has been opened, `close` is idempotent and
never raises: both a first and an immediately repeated `close` return
normally; but `close` on a never-opened session raises the attribute-lookup
failure. -/
theorem c6_close_amended (fs : List String) (ctr : Nat) (b : Bool) :
    ssh_close { handle := some b, fs := fs, execCtr := ctr }
      = ([Event.closeCalled], .ok { handle := some false, fs := fs, execCtr := ctr })
    ∧ ssh_close { handle := some false, fs := fs, execCtr := ctr }
      = ([Event.closeCalled], .ok { handle := some false, fs := fs, execCtr := ctr })
    ∧ ssh_close { handle := none, fs := fs, execCtr := ctr }
      = ([Event.closeCalled], .error PyError.attributeError) :=
  ⟨rfl, rfl, rfl⟩

/-- C7: for a non-empty token sequence the elevated invocation string is
the environment-preserving elevation prefix `sudo -E` followed by a space
and the original tokens joined with single spaces, tokens unaltered; the
non-elevated invocation string is exactly the tokens joined with single
spaces; with no tokens the elevated invocation is the bare prefix. -/
theorem c7_elevated_invocation (command : List String) (hne : command ≠ []) :
    join_command (build_command command true) = "sudo -E " ++ join_command command
    ∧ join_command (build_command command false) = join_command command
    ∧ join_command (build_command [] true) = "sudo -E" := by
  refine ⟨?_, by simp [join_command, build_command], rfl⟩
  match command, hne with
  | a :: l, _ =>
    show String.intercalate " " ("sudo -E" :: a :: l) = "sudo -E " ++ String.intercalate " " (a :: l)
    rw [intercalate_cons_cons]
    rfl

/-- Witness for C7 at the token sequence of the interpreter invocation. -/
theorem c7_witness :
    (["python3", "main.py"] : List String) ≠ []
    ∧ join_command (build_command ["python3", "main.py"] true)
      = "sudo -E " ++ join_command ["python3", "main.py"]
    ∧ join_command (build_command ["python3", "main.py"] false)
      = join_command ["python3", "main.py"] := by
  have h := c7_elevated_invocation ["python3", "main.py"] (by decide)
  exact ⟨by decide, h.1, h.2.1⟩

theorem execute_python_file_unfold (oracle : Oracle) (fs : List String)
    (lp : List String) (fn : String) (dest : List String) (as_root : Bool) :
    execute_python_file oracle fs lp fn true dest as_root
      = (Event.emit (asPosix dest ++ "\n") ::
          (with_ssh oracle fs (fun w =>
            andThen (execute oracle w ["rm -f " ++ asPosix (dest ++ [fn])] false false)
              (fun w1 => andThen (copy_file w1 lp fn dest)
                (fun w2 => execute oracle w2 ["python3", asPosix (dest ++ [fn])] as_root true)))).1,
         (with_ssh oracle fs (fun w =>
            andThen (execute oracle w ["rm -f " ++ asPosix (dest ++ [fn])] false false)
              (fun w1 => andThen (copy_file w1 lp fn dest)
                (fun w2 => execute oracle w2 ["python3", asPosix (dest ++ [fn])] as_root true)))).2) := by
  simp only [execute_python_file, ite_true, andThen_ok]
  rfl

theorem getLast?_cons_append_single {α : Type} (a c : α) (l : List α) :
    (a :: (l ++ [c])).getLast? = some c := by
  have h1 : (a :: (l ++ [c])) = [a] ++ (l ++ [c]) := rfl
  rw [h1, List.getLast?_append_of_ne_nil]
  · rw [List.getLast?_append_of_ne_nil]
    · rfl
    · simp
  · simp

/-- C2: each orchestrator workflow issues exactly one connection attempt
and exactly one `close` invocation, and the `close` invocation is the last
event of the run, whatever the transport does (connection failure, remote
command failure, transfer collision and normal completion alike). -/
theorem c2_workflow_session_scope (oracle : Oracle) (fs : List String)
    (path : List String) (env_name : String) (parent : List String) (project : Entry)
    (file : List String) (dest : List String) (as_root : Bool)
    (lp : List String) (fn : String) :
    ((create_python_environment oracle fs path env_name).1.count Event.connectAttempt = 1
      ∧ (create_python_environment oracle fs path env_name).1.count Event.closeCalled = 1
      ∧ (create_python_environment oracle fs path env_name).1.getLast? = some Event.closeCalled)
    ∧ ((execute_python_project oracle fs parent project file dest as_root).1.count
          Event.connectAttempt = 1
      ∧ (execute_python_project oracle fs parent project file dest as_root).1.count
          Event.closeCalled = 1
      ∧ (execute_python_project oracle fs parent project file dest as_root).1.getLast?
          = some Event.closeCalled)
    ∧ ((execute_python_file oracle fs lp fn true dest as_root).1.count
          Event.connectAttempt = 1
      ∧ (execute_python_file oracle fs lp fn true dest as_root).1.count
          Event.closeCalled = 1
      ∧ (execute_python_file oracle fs lp fn true dest as_root).1.getLast?
          = some Event.closeCalled) := by
  have hc1 : ∀ s, Event.connectAttempt = Event.emit s → False := fun _ h => Event.noConfusion h
  have hc2 : ∀ s, Event.closeCalled = Event.emit s → False := fun _ h => Event.noConfusion h
  have ho1 : Event.connectAttempt = Event.openSftp → False := fun h => Event.noConfusion h
  have ho2 : Event.closeCalled = Event.openSftp → False := fun h => Event.noConfusion h
  have henv := with_ssh_shape oracle fs
    (fun w => execute oracle w ["python3", "-m", "venv", asPosix (path ++ [env_name])] false false)
    (fun w => execute_count_zero oracle w _ false false Event.connectAttempt rfl hc1)
    (fun w => execute_count_zero oracle w _ false false Event.closeCalled rfl hc2)
  have hproj := with_ssh_shape oracle fs
    (fun w => andThen (execute oracle w ["rm -rf " ++ asPosix (dest ++ [project.name])] as_root false)
      (fun w1 => andThen (copy_folder w1 parent project dest)
        (fun w2 => execute oracle w2 ["python3", asPosix (dest ++ [project.name] ++ file)] as_root true)))
    (fun w => andThen_count_zero _ _ _
      (execute_count_zero oracle w _ as_root false Event.connectAttempt rfl hc1)
      (fun w1 => andThen_count_zero _ _ _
        (copy_folder_count_zero w1 parent project dest Event.connectAttempt rfl ho1)
        (fun w2 => execute_count_zero oracle w2 _ as_root true Event.connectAttempt rfl hc1)))
    (fun w => andThen_count_zero _ _ _
      (execute_count_zero oracle w _ as_root false Event.closeCalled rfl hc2)
      (fun w1 => andThen_count_zero _ _ _
        (copy_folder_count_zero w1 parent project dest Event.closeCalled rfl ho2)
        (fun w2 => execute_count_zero oracle w2 _ as_root true Event.closeCalled rfl hc2)))
  have hfile := with_ssh_shape oracle fs
    (fun w => andThen (execute oracle w ["rm -f " ++ asPosix (dest ++ [fn])] false false)
      (fun w1 => andThen (copy_file w1 lp fn dest)
        (fun w2 => execute oracle w2 ["python3", asPosix (dest ++ [fn])] as_root true)))
    (fun w => andThen_count_zero _ _ _
      (execute_count_zero oracle w _ false false Event.connectAttempt rfl hc1)
      (fun w1 => andThen_count_zero _ _ _
        (copy_file_count_zero w1 lp fn dest Event.connectAttempt rfl ho1)
        (fun w2 => execute_count_zero oracle w2 _ as_root true Event.connectAttempt rfl hc1)))
    (fun w => andThen_count_zero _ _ _
      (execute_count_zero oracle w _ false false Event.closeCalled rfl hc2)
      (fun w1 => andThen_count_zero _ _ _
        (copy_file_count_zero w1 lp fn dest Event.closeCalled rfl ho2)
        (fun w2 => execute_count_zero oracle w2 _ as_root true Event.closeCalled rfl hc2)))
  refine ⟨⟨henv.1, henv.2.1, ?_⟩, ⟨hproj.1, hproj.2.1, ?_⟩, ⟨?_, ?_, ?_⟩⟩
  · obtain ⟨pre, hpre⟩ := henv.2.2
    have heq : (create_python_environment oracle fs path env_name).1
        = pre ++ [Event.closeCalled] := hpre
    rw [heq]
    simp
  · obtain ⟨pre, hpre⟩ := hproj.2.2
    have heq : (execute_python_project oracle fs parent project file dest as_root).1
        = pre ++ [Event.closeCalled] := hpre
    rw [heq]
    simp
  · rw [execute_python_file_unfold]
    simp only [List.count_cons]
    have : (Event.emit (asPosix dest ++ "\n") == Event.connectAttempt) = false := by
      simp
    rw [List.count]
    simp only [List.countP_cons, this]
    have h1 := hfile.1
    simp only [List.count] at h1
    simp [h1]
  · rw [execute_python_file_unfold]
    have : (Event.emit (asPosix dest ++ "\n") == Event.closeCalled) = false := by
      simp
    rw [List.count]
    simp only [List.countP_cons, this]
    have h1 := hfile.2.1
    simp only [List.count] at h1
    simp [h1]
  · rw [execute_python_file_unfold]
    obtain ⟨pre, hpre⟩ := hfile.2.2
    rw [hpre]
    exact getLast?_cons_append_single _ _ _

/-- C8: with streaming off, `execute` runs the remote command to completion
and then emits the full standard-error stream (followed by the newline that
`print` appends) as the final output event, even when that stream is empty,
and returns normally: the emission of an empty standard-error stream raises
nothing. -/
theorem c8_buffered_emits_stderr (oracle : Oracle) (w : World) (command : List String)
    (as_root : Bool) (lines : List String) (err : String)
    (hconn : w.handle = some true)
    (hexec : oracle.execResult w.execCtr = .success lines err) :
    execute oracle w command as_root false
      = ([Event.execCall (join_command (build_command command as_root)) false]
          ++ lines.map Event.emit ++ [Event.emit (err ++ "\n")],
         .ok { w with execCtr := w.execCtr + 1 }) := by
  simp [execute, exec_command, hconn, hexec, andThen]

/-- Witness for C8 with an empty standard-error stream and no stdout. -/
theorem c8_witness :
    demo_world.handle = some true
    ∧ demo_oracle_ok.execResult demo_world.execCtr = .success [] ""
    ∧ execute demo_oracle_ok demo_world ["ls", "-la"] false false
      = ([Event.execCall "ls -la" false, Event.emit "\n"],
         .ok { handle := some true, fs := [], execCtr := 1 }) := by
  have h := c8_buffered_emits_stderr demo_oracle_ok demo_world ["ls", "-la"] false [] "" rfl rfl
  refine ⟨rfl, rfl, ?_⟩
  rw [h]
  rfl

theorem main_handler_eq_none {α : Type} (r : Except PyError α)
    (h : isRemotePythonError r = false) : main_handler r = none := by
  match r with
  | .ok a => rfl
  | .error .attributeError => rfl
  | .error .assertionError => rfl
  | .error (.transport e2) => rfl
  | .error (.remotePython m) => simp [isRemotePythonError] at h

/-- C10: no operation of the core and none of the three workflows can
raise the domain exception `RemotePythonException`, so the top-level
handler that catches it never fires: every failure is a transport-level or
builtin exception. -/
theorem c10_handler_unreachable (oracle : Oracle) (fs : List String)
    (path : List String) (env_name : String) (parent : List String) (project : Entry)
    (file : List String) (dest : List String) (as_root is_file : Bool)
    (lp : List String) (fn : String) (w : World) (command : List String) (pty : Bool) :
    main_handler (create_python_environment oracle fs path env_name).2 = none
    ∧ main_handler (execute_python_project oracle fs parent project file dest as_root).2 = none
    ∧ main_handler (execute_python_file oracle fs lp fn is_file dest as_root).2 = none
    ∧ isRemotePythonError (ssh_connect oracle w).2 = false
    ∧ isRemotePythonError (ssh_close w).2 = false
    ∧ isRemotePythonError (execute oracle w command as_root pty).2 = false
    ∧ isRemotePythonError (copy_folder w parent project dest).2 = false
    ∧ isRemotePythonError (copy_file w lp fn dest).2 = false := by
  refine ⟨?_, ?_, ?_, ?_, ?_, execute_no_rpe oracle w command as_root pty,
    copy_folder_no_rpe w parent project dest, copy_file_no_rpe w lp fn dest⟩
  · exact main_handler_eq_none _ (with_ssh_no_rpe oracle fs _
      (fun w2 => execute_no_rpe oracle w2 _ false false))
  · exact main_handler_eq_none _ (with_ssh_no_rpe oracle fs _
      (fun w2 => andThen_no_rpe _ _ (execute_no_rpe oracle w2 _ as_root false)
        (fun w3 => andThen_no_rpe _ _ (copy_folder_no_rpe w3 parent project dest)
          (fun w4 => execute_no_rpe oracle w4 _ as_root true))))
  · match is_file with
    | true =>
      rw [execute_python_file_unfold]
      exact main_handler_eq_none _ (with_ssh_no_rpe oracle fs _
        (fun w2 => andThen_no_rpe _ _ (execute_no_rpe oracle w2 _ false false)
          (fun w3 => andThen_no_rpe _ _ (copy_file_no_rpe w3 lp fn dest)
            (fun w4 => execute_no_rpe oracle w4 _ as_root true))))
    | false => rfl
  · rcases hc : oracle.connectResult with _ | e <;>
      simp [ssh_connect, hc, isRemotePythonError]
  · rcases hh : w.handle with _ | b <;>
      simp [ssh_close, hh, isRemotePythonError]

theorem intercalate_singleton (s a : String) : String.intercalate s [a] = a := rfl

theorem join_python3 (P : String) (root : Bool) :
    join_command (build_command ["python3", P] root)
      = (if root then "sudo -E python3 " else "python3 ") ++ P := by
  match root with
  | false =>
    show String.intercalate " " ["python3", P] = "python3 " ++ P
    rw [intercalate_cons_cons]
    rfl
  | true =>
    show String.intercalate " " ["sudo -E", "python3", P] = "sudo -E python3 " ++ P
    rw [intercalate_cons_cons, intercalate_cons_cons]
    rfl

theorem filter_exec_map_emit (lines : List String) :
    (lines.map Event.emit).filter isExecEvent = [] := by
  induction lines with
  | nil => rfl
  | cons a as ih => simp [isExecEvent, ih]

theorem join_command_single_false (x : String) :
    join_command (build_command [x] false) = x := rfl

/-- C9: in the execute-file workflow the preliminary removal of the
pre-existing remote file is issued without elevation whatever the
`as_root` flag is, while the final interpreter invocation carries the
elevation prefix exactly when `as_root` is set: a successful run issues
exactly these two remote commands, in this order. -/
theorem c9_removal_not_elevated (oracle : Oracle) (fs : List String)
    (lp : List String) (fn : String) (dest : List String) (as_root : Bool)
    (h : resultOk (execute_python_file oracle fs lp fn true dest as_root).2 = true) :
    (execute_python_file oracle fs lp fn true dest as_root).1.filter isExecEvent
      = [Event.execCall ("rm -f " ++ asPosix (dest ++ [fn])) false,
         Event.execCall ((if as_root then "sudo -E python3 " else "python3 ")
            ++ asPosix (dest ++ [fn])) true] := by
  rw [execute_python_file_unfold] at h ⊢
  rcases hc : oracle.connectResult with _ | e
  · rcases h0 : oracle.execResult 0 with ⟨l1, e1⟩ | er
    · rcases h1 : oracle.execResult 1 with ⟨l2, e2⟩ | er2
      · simp [with_ssh, ssh_connect, ssh_close, hc, execute, exec_command, h0, h1,
          copy_file, open_sftp, sftp_put, andThen, List.filter_append, filter_exec_map_emit,
          isExecEvent, join_command_single_false, join_python3]
      · simp [with_ssh, ssh_connect, ssh_close, hc, execute, exec_command, h0, h1,
          copy_file, open_sftp, sftp_put, andThen, resultOk] at h
    · simp [with_ssh, ssh_connect, ssh_close, hc, execute, exec_command, h0,
        andThen, resultOk] at h
  · simp [with_ssh, ssh_connect, ssh_close, hc, resultOk] at h

/-- Witness for C9: an elevated run removes with a bare `rm -f` and runs
the interpreter behind the elevation prefix. -/
theorem c9_witness :
    resultOk (execute_python_file demo_oracle_ok [] ["local"] "task.py" true
        ["", "srv"] true).2 = true
    ∧ (execute_python_file demo_oracle_ok [] ["local"] "task.py" true
        ["", "srv"] true).1.filter isExecEvent
      = [Event.execCall "rm -f /srv/task.py" false,
         Event.execCall "sudo -E python3 /srv/task.py" true] := by
  have hok : resultOk (execute_python_file demo_oracle_ok [] ["local"] "task.py" true
      ["", "srv"] true).2 = true := rfl
  have h := c9_removal_not_elevated demo_oracle_ok [] ["local"] "task.py" ["", "srv"] true hok
  refine ⟨hok, ?_⟩
  rw [h]
  rfl

/-- C3: the execute-project workflow runs its three steps strictly in
sequence: when every step succeeds the trace is exactly the removal
command, then the mirroring transfer, then the streaming interpreter
invocation; and when the removal raises, or when the transfer raises, the
interpreter invocation never appears in the trace. -/
theorem c3_project_step_sequence (oracle : Oracle) (fs : List String)
    (parent : List String) (project : Entry) (file : List String) (dest : List String)
    (as_root : Bool) (l1 l2 : List String) (e1 e2 : String) :
    (oracle.connectResult = none →
        oracle.execResult 0 = .success l1 e1 →
        oracle.execResult 1 = .success l2 e2 →
        resultOk (copy_tree { handle := some true, fs := fs, execCtr := 1 }
          parent dest project).2 = true →
        (execute_python_project oracle fs parent project file dest as_root).1
          = [Event.connectAttempt,
             Event.execCall (join_command (build_command
               ["rm -rf " ++ asPosix (dest ++ [project.name])] as_root)) false]
            ++ l1.map Event.emit ++ [Event.emit (e1 ++ "\n"), Event.openSftp]
            ++ mirror_calls parent dest project
            ++ [Event.execCall (join_command (build_command
                 ["python3", asPosix (dest ++ [project.name] ++ file)] as_root)) true]
            ++ l2.map Event.emit ++ [Event.emit (e2 ++ "\n"), Event.closeCalled])
    ∧ (∀ er, oracle.execResult 0 = .failure er →
        (execute_python_project oracle fs parent project file dest as_root).1.count
          (Event.execCall (join_command (build_command
            ["python3", asPosix (dest ++ [project.name] ++ file)] as_root)) true) = 0)
    ∧ (resultOk (copy_tree { handle := some true, fs := fs, execCtr := 1 }
          parent dest project).2 = false →
        (execute_python_project oracle fs parent project file dest as_root).1.count
          (Event.execCall (join_command (build_command
            ["python3", asPosix (dest ++ [project.name] ++ file)] as_root)) true) = 0) := by
  refine ⟨?_, ?_, ?_⟩
  · intro hc h0 h1 hcp
    rcases hcp2 : copy_tree { handle := some true, fs := fs, execCtr := 1 } parent dest project
      with ⟨trc, rc⟩
    rw [hcp2] at hcp
    match rc with
    | .error err => simp [resultOk] at hcp
    | .ok w3 =>
      have htr := copy_tree_ok { handle := some true, fs := fs, execCtr := 1 }
        parent dest project trc w3 hcp2
      obtain ⟨h3, f3, c3⟩ := w3
      have hh3 : h3 = some true := htr.2.1
      have hc3 : c3 = 1 := htr.2.2
      subst hh3
      subst hc3
      simp [execute_python_project, with_ssh, ssh_connect, ssh_close, hc, execute,
        exec_command, h0, h1, copy_folder, open_sftp, hcp2, andThen, htr.1]
  · intro er h0f
    rcases hc : oracle.connectResult with _ | e
    · simp [execute_python_project, with_ssh, ssh_connect, ssh_close, hc, execute,
        exec_command, h0f, andThen, List.count_cons, List.count_append, List.count_eq_zero]
    · simp [execute_python_project, with_ssh, ssh_connect, ssh_close, hc,
        List.count_cons, List.count_eq_zero]
  · intro hcpf
    rcases hc : oracle.connectResult with _ | e
    · rcases h0 : oracle.execResult 0 with ⟨l1b, e1b⟩ | er
      · rcases hcp2 : copy_tree { handle := some true, fs := fs, execCtr := 1 }
          parent dest project with ⟨trc, rc⟩
        rw [hcp2] at hcpf
        match rc with
        | .ok w3 => simp [resultOk] at hcpf
        | .error err =>
          have hall := copy_tree_all_transfer { handle := some true, fs := fs, execCtr := 1 }
            parent dest project
          rw [hcp2] at hall
          have hnotin : Event.execCall (join_command (build_command
              ["python3", asPosix (dest ++ [project.name] ++ file)] as_root)) true ∉ trc := by
            intro hin
            have h2 := List.all_eq_true.mp hall _ hin
            simp [isTransferEvent] at h2
          simp only [List.append_assoc, List.singleton_append] at hnotin
          simp [execute_python_project, with_ssh, ssh_connect, ssh_close, hc, execute,
            exec_command, h0, copy_folder, open_sftp, hcp2, andThen,
            List.count_cons, List.count_append, List.count_eq_zero, hnotin]
      · simp [execute_python_project, with_ssh, ssh_connect, ssh_close, hc, execute,
          exec_command, h0, andThen, List.count_cons, List.count_append, List.count_eq_zero]
    · simp [execute_python_project, with_ssh, ssh_connect, ssh_close, hc,
        List.count_cons, List.count_eq_zero]

/-- Witness for C3: a fully successful run produces the three steps in
order; a failing removal and a transfer collision each leave the
interpreter invocation out of the trace. -/
theorem c3_witness :
    (execute_python_project demo_oracle_ok [] ["home"] demo_tree ["a.py"] ["", "srv"] false).1
      = [Event.connectAttempt, Event.execCall "rm -rf /srv/App" false, Event.emit "\n",
         Event.openSftp, Event.mkdirCall "/srv/App",
         Event.putCall "home/App/a.py" "/srv/App/a.py",
         Event.mkdirCall "/srv/App/sub",
         Event.putCall "home/App/sub/b.txt" "/srv/App/sub/b.txt",
         Event.mkdirCall "/srv/App/empty",
         Event.execCall "python3 /srv/App/a.py" true,
         Event.emit "\n", Event.closeCalled]
    ∧ (execute_python_project demo_oracle_first_exec_fails [] ["home"] demo_tree ["a.py"]
        ["", "srv"] false).1.count (Event.execCall "python3 /srv/App/a.py" true) = 0
    ∧ (execute_python_project demo_oracle_ok ["/srv/App"] ["home"] demo_tree ["a.py"]
        ["", "srv"] false).1.count (Event.execCall "python3 /srv/App/a.py" true) = 0 := by
  refine ⟨?_, ?_, ?_⟩
  · have ha := (c3_project_step_sequence demo_oracle_ok [] ["home"] demo_tree ["a.py"]
      ["", "srv"] false [] [] "" "").1 rfl rfl rfl rfl
    rw [ha]
    rfl
  · exact (c3_project_step_sequence demo_oracle_first_exec_fails [] ["home"] demo_tree ["a.py"]
      ["", "srv"] false [] [] "" "").2.1 (.execFail "boom") rfl
  · exact (c3_project_step_sequence demo_oracle_ok ["/srv/App"] ["home"] demo_tree ["a.py"]
      ["", "srv"] false [] [] "" "").2.2 rfl
